import Mathlib

/-!
Verification of the Dash data-display demo (src/Python/check.py).

The program reads one text file at module load, registers a static layout,
and wires one callback that recomputes the modal content and style from two
click counters.  We embed the callback, the file reader, the implicit
startup sequencing, and the click-counter dynamics, and prove the
specified properties about them.
-/

namespace CheckApp

/-- Truthiness of a Dash click counter, mirroring how Python evaluates
the value of an n_clicks property (None or an int) in a boolean context:
None and 0 are falsy, every positive count is truthy. -/
def clicksTruthy : Option Nat → Bool
  | none => false
  | some n => n != 0

/-- A CSS style dictionary as returned by the callback; the source only
ever sets the display key, so the embedding carries exactly that. -/
structure Style where
  display : String
deriving DecidableEq

/-- The callback update_popup of check.py, lines 36-39:
if n_clicks_open and not n_clicks_close, return
(data_content, display block); otherwise return the empty string and
display none. -/
def update_popup (n_clicks_open n_clicks_close : Option Nat)
    (data_content : String) : String × Style :=
  if clicksTruthy n_clicks_open && !clicksTruthy n_clicks_close then
    (data_content, ⟨"block"⟩)
  else
    ("", ⟨"none"⟩)

/-- A file system: a partial map from paths to file contents.  A path
mapped to none does not exist (or cannot be read). -/
def FileSystem : Type := String → Option String

/-- The error raised when opening a file fails (Python OSError from
open, the FileAccessError of the spec). -/
inductive FileAccessError : Type where
  | fileNotFound : String → FileAccessError
deriving DecidableEq

/-- read_data_from_file of check.py, lines 8-10: open the file at
file_path and return its whole contents; opening a missing or
unreadable path raises. -/
def read_data_from_file (fs : FileSystem) (file_path : String) :
    Except FileAccessError String :=
  match fs file_path with
  | some contents => Except.ok contents
  | none => Except.error (FileAccessError.fileNotFound file_path)

/-- The fixed startup path, check.py line 12. -/
def data_file_path : String := "check.txt"

/-- The process-wide application state established by a successful
startup: the loaded file content and the fact that the server was
launched. -/
structure App where
  data_content : String
  serverRunning : Bool
deriving DecidableEq

/-- Startup sequencing of check.py: line 13 evaluates
read_data_from_file at module load, before line 42 can start the
server, so the server only runs if the read succeeded. -/
def startup (fs : FileSystem) : Except FileAccessError App :=
  match read_data_from_file fs data_file_path with
  | Except.ok contents =>
      Except.ok { data_content := contents, serverRunning := true }
  | Except.error e => Except.error e

/-- The per-session UI state the framework holds between callback
invocations: the content loaded at startup and the two click counters
(each unset until the first click). -/
structure UIState where
  data_content : String
  opens : Option Nat
  closes : Option Nat
deriving DecidableEq

/-- The two UI events: a click on the open button or on the close
control. -/
inductive Event : Type where
  | openClick : Event
  | closeClick : Event
deriving DecidableEq

/-- How the Dash runtime advances an n_clicks counter on a click: an
unset counter becomes 1, a set counter is incremented. -/
def bumpClicks : Option Nat → Option Nat
  | none => some 1
  | some n => some (n + 1)

/-- Effect of one UI event on the session state: the corresponding
counter is bumped; nothing else changes. -/
def applyEvent (s : UIState) : Event → UIState
  | Event.openClick => { s with opens := bumpClicks s.opens }
  | Event.closeClick => { s with closes := bumpClicks s.closes }

/-- The session state before any click: both counters unset, content as
loaded at startup. -/
def initState (content : String) : UIState :=
  { data_content := content, opens := none, closes := none }

/-- What the callback renders for a session state: update_popup applied
to the two counters and the stored content. -/
def render (s : UIState) : String × Style :=
  update_popup s.opens s.closes s.data_content

/-- Run a sequence of UI events from a state. -/
def runEvents (s : UIState) (evs : List Event) : UIState :=
  evs.foldl applyEvent s

/-- The truthy-opens, falsy-closes guard of the callback, phrased
arithmetically as the spec states it. -/
def guardHolds (opens closes : Option Nat) : Prop :=
  (∃ n, opens = some n ∧ 1 ≤ n) ∧ (closes = none ∨ closes = some 0)

theorem clicksTruthy_true_iff (o : Option Nat) :
    clicksTruthy o = true ↔ ∃ n, o = some n ∧ 1 ≤ n := by
  cases o with
  | none => simp [clicksTruthy]
  | some n =>
      simp only [clicksTruthy, ne_eq, bne_iff_ne, Option.some.injEq]
      constructor
      · intro h
        exact ⟨n, rfl, Nat.one_le_iff_ne_zero.mpr h⟩
      · rintro ⟨m, rfl, hm⟩
        exact Nat.one_le_iff_ne_zero.mp hm

theorem clicksTruthy_false_iff (o : Option Nat) :
    clicksTruthy o = false ↔ (o = none ∨ o = some 0) := by
  cases o with
  | none => simp [clicksTruthy]
  | some n => simp [clicksTruthy]

theorem guard_decomp (o c : Option Nat) :
    (clicksTruthy o && !clicksTruthy c) = true ↔ guardHolds o c := by
  rw [Bool.and_eq_true, Bool.not_eq_true']
  exact and_congr (clicksTruthy_true_iff o) (clicksTruthy_false_iff c)

theorem style_block_ne_none : (⟨"block"⟩ : Style) ≠ ⟨"none"⟩ := by
  decide

/-- Claim C1: update_popup returns the visible pair (the loaded content with
display block) exactly when opens is at least 1 and closes is 0 or
unset, and otherwise returns the hidden pair (empty content with
display none). -/
theorem update_popup_characterization (o c : Option Nat) (d : String) :
    (update_popup o c d = (d, ⟨"block"⟩) ↔ guardHolds o c)
    ∧ (update_popup o c d = ("", ⟨"none"⟩) ↔ ¬ guardHolds o c) := by
  unfold update_popup
  by_cases h : guardHolds o c
  · rw [if_pos ((guard_decomp o c).mpr h)]
    constructor
    · simp [h]
    · constructor
      · intro heq
        exact absurd (congrArg Prod.snd heq) style_block_ne_none
      · intro hn; exact absurd h hn
  · rw [if_neg (fun hb => h ((guard_decomp o c).mp hb))]
    constructor
    · constructor
      · intro heq
        exact absurd (congrArg Prod.snd heq).symm style_block_ne_none
      · intro hg; exact absurd hg h
    · simp [h]

theorem update_popup_hidden_of_closes (o c : Option Nat) (d : String)
    (h : clicksTruthy c = true) :
    update_popup o c d = ("", ⟨"none"⟩) := by
  unfold update_popup
  rw [h]
  simp

theorem bumpClicks_truthy (o : Option Nat) :
    clicksTruthy (bumpClicks o) = true := by
  cases o <;> simp [bumpClicks, clicksTruthy]

theorem applyEvent_closes_truthy (s : UIState) (e : Event)
    (h : clicksTruthy s.closes = true) :
    clicksTruthy (applyEvent s e).closes = true := by
  cases e with
  | openClick => exact h
  | closeClick => exact bumpClicks_truthy s.closes

theorem runEvents_closes_truthy (evs : List Event) (s : UIState)
    (h : clicksTruthy s.closes = true) :
    clicksTruthy (runEvents s evs).closes = true := by
  induction evs generalizing s with
  | nil => exact h
  | cons e rest ih => exact ih (applyEvent s e) (applyEvent_closes_truthy s e h)

theorem closes_truthy_of_mem (evs : List Event) (s : UIState)
    (h : Event.closeClick ∈ evs) :
    clicksTruthy (runEvents s evs).closes = true := by
  induction evs generalizing s with
  | nil => cases h
  | cons e rest ih =>
      cases List.mem_cons.mp h with
      | inl he =>
          subst he
          exact runEvents_closes_truthy rest (applyEvent s Event.closeClick)
            (bumpClicks_truthy s.closes)
      | inr hr => exact ih (applyEvent s e) hr

/-- Claim C2: one-directional latch — starting from the initial session state,
any event sequence containing at least one close-click ends in the
hidden state rendering the empty string, no matter how many open-clicks
the sequence also contains. -/
theorem close_latch (content : String) (evs : List Event)
    (h : Event.closeClick ∈ evs) :
    render (runEvents (initState content) evs) = ("", ⟨"none"⟩) :=
  update_popup_hidden_of_closes _ _ _
    (closes_truthy_of_mem evs (initState content) h)

/-- Witness for C2: the latch scenario opens=5, closes=1 — five
open-clicks then one close-click end hidden with empty text. -/
theorem close_latch_witness :
    Event.closeClick ∈
      [Event.openClick, Event.openClick, Event.openClick, Event.openClick,
       Event.openClick, Event.closeClick]
    ∧ render (runEvents (initState "data")
        [Event.openClick, Event.openClick, Event.openClick, Event.openClick,
         Event.openClick, Event.closeClick]) = ("", ⟨"none"⟩) :=
  ⟨by decide, close_latch "data" _ (by decide)⟩

/-- Claim C3: read_data_from_file returns exactly the stored contents of an
existing file, and fails with FileAccessError when the path does not
exist. -/
theorem read_data_from_file_spec (fs : FileSystem) (p : String) :
    (∀ c, fs p = some c → read_data_from_file fs p = Except.ok c)
    ∧ (fs p = none →
        read_data_from_file fs p
          = Except.error (FileAccessError.fileNotFound p)) := by
  constructor
  · intro c hc
    unfold read_data_from_file
    rw [hc]
  · intro hn
    unfold read_data_from_file
    rw [hn]

/-- A two-file test fixture used to witness the loader contract. -/
def demoFS : FileSystem :=
  fun p => if p = "check.txt" then some "hello" else none

/-- Witness for C3: on a concrete file system, reading an existing file
yields its contents and reading a missing path yields the error. -/
theorem read_data_from_file_witness :
    read_data_from_file demoFS "check.txt" = Except.ok "hello"
    ∧ read_data_from_file demoFS "missing.txt"
        = Except.error (FileAccessError.fileNotFound "missing.txt") :=
  ⟨(read_data_from_file_spec demoFS "check.txt").1 "hello" (by decide),
   (read_data_from_file_spec demoFS "missing.txt").2 (by decide)⟩

/-- Claim C4: in the initial session state, with both counters unset, the
rendered visibility is hidden and the rendered text is the empty
string, whatever content was loaded. -/
theorem initial_state_hidden (d : String) :
    render (initState d) = ("", ⟨"none"⟩) := rfl

/-- Claim C5: if the fixed startup file is missing, startup fails with the
file-access error and never yields a running application — the failure
happens before the server could be started. -/
theorem startup_fatal (fs : FileSystem) (h : fs data_file_path = none) :
    startup fs = Except.error (FileAccessError.fileNotFound data_file_path)
    ∧ ∀ a : App, startup fs ≠ Except.ok a := by
  have hs : startup fs
      = Except.error (FileAccessError.fileNotFound data_file_path) := by
    unfold startup read_data_from_file
    rw [h]
  exact ⟨hs, fun a ha => by rw [hs] at ha; cases ha⟩

/-- Witness for C5: on the empty file system, startup fails with the
error for check.txt. -/
theorem startup_fatal_witness :
    startup (fun _ => none)
      = Except.error (FileAccessError.fileNotFound data_file_path)
    ∧ ∀ a : App, startup (fun _ => none) ≠ Except.ok a :=
  startup_fatal (fun _ => none) rfl

/-- Claim C6: update_popup is deterministic — two evaluations on equal counter
values and equal loaded content return identical content and style. -/
theorem update_popup_pure (o₁ o₂ c₁ c₂ : Option Nat) (d₁ d₂ : String)
    (ho : o₁ = o₂) (hc : c₁ = c₂) (hd : d₁ = d₂) :
    update_popup o₁ c₁ d₁ = update_popup o₂ c₂ d₂ := by
  subst ho; subst hc; subst hd; rfl

/-- Witness for C6: repeating the evaluation at opens=1, closes=0 on the
same content gives the same pair. -/
theorem update_popup_pure_witness :
    update_popup (some 1) (some 0) "hello"
      = update_popup (some 1) (some 0) "hello" :=
  update_popup_pure (some 1) (some 1) (some 0) (some 0) "hello" "hello"
    rfl rfl rfl

/-- Claim C7: the stored content is never changed by any UI transition — a
single event, and hence any event sequence, leaves data_content exactly
as loaded at startup (the transition functions take no file system at
all, so no file I/O can occur in them). -/
theorem content_frame :
    (∀ (s : UIState) (e : Event),
      (applyEvent s e).data_content = s.data_content)
    ∧ ∀ (s : UIState) (evs : List Event),
        (runEvents s evs).data_content = s.data_content := by
  have hstep : ∀ (s : UIState) (e : Event),
      (applyEvent s e).data_content = s.data_content := by
    intro s e; cases e <;> rfl
  refine ⟨hstep, ?_⟩
  intro s evs
  induction evs generalizing s with
  | nil => rfl
  | cons e rest ih => rw [runEvents, List.foldl_cons, ← runEvents, ih, hstep]

/-- Counterexample for claim C8: when the loaded content is the empty string and
opens=1 with closes unset, the callback returns the visible style
together with empty text — a mixed combination the claim rules out, and
a case where the style is not display none although the returned
content is empty. -/
theorem update_popup_coupling_cex :
    (update_popup (some 1) none "").2 = ⟨"block"⟩
    ∧ (update_popup (some 1) none "").1 = "" := by
  decide

/-- Amended claim C8: provided the loaded content is nonempty, the callback
returns display block exactly when the returned content equals the
loaded content, and display none exactly when the returned content is
empty. -/
theorem update_popup_coupling (o c : Option Nat) (d : String)
    (hd : d ≠ "") :
    ((update_popup o c d).2 = ⟨"block"⟩ ↔ (update_popup o c d).1 = d)
    ∧ ((update_popup o c d).2 = ⟨"none"⟩ ↔ (update_popup o c d).1 = "") := by
  unfold update_popup
  cases hb : clicksTruthy o && !clicksTruthy c with
  | true =>
      rw [if_pos rfl]
      refine ⟨⟨fun _ => rfl, fun _ => rfl⟩, ?_, ?_⟩
      · intro h; exact absurd h style_block_ne_none
      · intro h; exact absurd h hd
  | false =>
      rw [if_neg Bool.false_ne_true]
      refine ⟨⟨?_, ?_⟩, fun _ => rfl, fun _ => rfl⟩
      · intro h; exact absurd h.symm style_block_ne_none
      · intro h; exact absurd h.symm hd

/-- Witness for C8 amended: at opens=1, closes unset, content "hello",
the coupling holds. -/
theorem update_popup_coupling_witness :
    ((update_popup (some 1) none "hello").2 = ⟨"block"⟩
      ↔ (update_popup (some 1) none "hello").1 = "hello")
    ∧ ((update_popup (some 1) none "hello").2 = ⟨"none"⟩
      ↔ (update_popup (some 1) none "hello").1 = "") :=
  update_popup_coupling (some 1) none "hello" (by decide)

theorem update_popup_congr (o₁ o₂ c₁ c₂ : Option Nat) (d : String)
    (ho : clicksTruthy o₁ = clicksTruthy o₂)
    (hc : clicksTruthy c₁ = clicksTruthy c₂) :
    update_popup o₁ c₁ d = update_popup o₂ c₂ d := by
  unfold update_popup
  rw [ho, hc]

theorem clicksTruthy_some_pos (n : Nat) (h : 1 ≤ n) :
    clicksTruthy (some n) = true := by
  simp only [clicksTruthy, ne_eq, bne_iff_ne]
  exact Nat.one_le_iff_ne_zero.mp h

/-- Claim C9: the output depends only on the falsy/truthy status of each
counter, not on its magnitude — any positive pair behaves like (1, 1),
any (positive, 0) pair behaves like (1, 0), and an unset counter
behaves exactly like 0 on either side. -/
theorem magnitude_irrelevance (m n : Nat) (d : String)
    (hm : 1 ≤ m) (hn : 1 ≤ n) :
    update_popup (some m) (some n) d = update_popup (some 1) (some 1) d
    ∧ update_popup (some m) (some 0) d = update_popup (some 1) (some 0) d
    ∧ (∀ c, update_popup none c d = update_popup (some 0) c d)
    ∧ (∀ o, update_popup o none d = update_popup o (some 0) d) := by
  have h1 : clicksTruthy (some 1) = true :=
    clicksTruthy_some_pos 1 (Nat.le_refl 1)
  have hm' : clicksTruthy (some m) = true := clicksTruthy_some_pos m hm
  have hn' : clicksTruthy (some n) = true := clicksTruthy_some_pos n hn
  refine ⟨?_, ?_, ?_, ?_⟩
  · exact update_popup_congr _ _ _ _ d (hm'.trans h1.symm) (hn'.trans h1.symm)
  · exact update_popup_congr _ _ _ _ d (hm'.trans h1.symm) rfl
  · intro c; exact update_popup_congr _ _ _ _ d rfl rfl
  · intro o; exact update_popup_congr _ _ _ _ d rfl rfl

/-- Witness for C9: magnitude irrelevance at m=3, n=2 with concrete
content. -/
theorem magnitude_irrelevance_witness :
    update_popup (some 3) (some 2) "x" = update_popup (some 1) (some 1) "x"
    ∧ update_popup (some 3) (some 0) "x" = update_popup (some 1) (some 0) "x"
    ∧ (∀ c, update_popup none c "x" = update_popup (some 0) c "x")
    ∧ (∀ o, update_popup o none "x" = update_popup o (some 0) "x") :=
  magnitude_irrelevance 3 2 "x" (by decide) (by decide)

/-- Claim C10: the callback is total — for every combination of unset-or-
natural counters and any loaded content it returns normally, and the
result is one of exactly two pairs: the visible one or the hidden
one. -/
theorem update_popup_total (o c : Option Nat) (d : String) :
    update_popup o c d = (d, ⟨"block"⟩)
    ∨ update_popup o c d = ("", ⟨"none"⟩) := by
  unfold update_popup
  cases clicksTruthy o && !clicksTruthy c with
  | true => left; rfl
  | false => right; rfl

end CheckApp
